import Mathlib

/-!
Shallow embedding of `src/check_qualys/src/main.rs` (an SSL Labs / Qualys
API polling client) and verification of its specification claims.

Modelling conventions:
- A Rust panic (including unwrap on an Err value) is modelled as
  `Except.error`.
- `strum`'s derived `EnumString::from_str` is modelled by `Option`-valued
  parse functions.  The derive in the source has `serialize_all = "UPPERCASE"`
  and no `ascii_case_insensitive` attribute, so matching is an exact,
  case-sensitive comparison against the serialized tokens.
- `strum`'s derived `Display` renders the variant's preferred serialization,
  which for several `serialize` attributes is the longest one (the last such
  in declaration order on a tie), hence `InProgress` renders as
  `"IN PROGRESS"`.
- `i32` exit codes are modelled as `Int`; every value actually stored is
  one of 0,1,2,3 so overflow is irrelevant.
- The HTTP fetch is an external collaborator; the poll loop is modelled
  over an arbitrary stream of already-decoded responses.
-/

namespace CheckQualys

/-- Rust struct `Endpoint`: one assessed endpoint of the host. -/
structure Endpoint where
  status_message : Option String
  grade : Option String
  deriving DecidableEq, Repr

/-- Rust struct `Response`: one decoded poll response body. -/
structure Response where
  host : String
  status : String
  status_message : Option String
  endpoints : Option (List Endpoint)
  deriving DecidableEq, Repr

/-- Rust enum `State`: canonical overall assessment status. -/
inductive State where
  | Dns
  | Error
  | InProgress
  | Ready
  | Unknown
  deriving DecidableEq, Repr

/-- Rust enum `Grade`: the letter grade reported for an endpoint. -/
inductive Grade where
  | APlus
  | A
  | AMinus
  | B
  | C
  | D
  | E
  | F
  | M
  | T
  deriving DecidableEq, Repr

/-- Rust struct `Status`: the mutable poll state threaded through the loop. -/
structure Status where
  ready : Bool
  status : State
  error : Option String
  grade : Option Grade
  message : Option String
  exit_code : Int
  deriving DecidableEq, Repr

/-- Strum-derived `State::from_str`.  With `serialize_all = "UPPERCASE"` and
the three explicit `serialize` spellings on `InProgress`, the derive matches
the exact serialized tokens, case-sensitively; anything else is an error,
modelled as `none`. -/
def State.from_str (s : String) : Option State :=
  if s = "DNS" then some State.Dns
  else if s = "ERROR" then some State.Error
  else if s = "IN_PROGRESS" ∨ s = "INPROGRESS" ∨ s = "IN PROGRESS" then
    some State.InProgress
  else if s = "READY" then some State.Ready
  else if s = "UNKNOWN" then some State.Unknown
  else none

/-- Strum-derived `Display` for `State` (preferred = longest serialization). -/
def State.render : State → String
  | State.Dns => "DNS"
  | State.Error => "ERROR"
  | State.InProgress => "IN PROGRESS"
  | State.Ready => "READY"
  | State.Unknown => "UNKNOWN"

/-- Strum-derived `Grade::from_str`: exact match on the serialized tokens
(`A+`, `A-` from explicit attributes, the rest are the variant names). -/
def Grade.from_str (s : String) : Option Grade :=
  if s = "A+" then some Grade.APlus
  else if s = "A" then some Grade.A
  else if s = "A-" then some Grade.AMinus
  else if s = "B" then some Grade.B
  else if s = "C" then some Grade.C
  else if s = "D" then some Grade.D
  else if s = "E" then some Grade.E
  else if s = "F" then some Grade.F
  else if s = "M" then some Grade.M
  else if s = "T" then some Grade.T
  else none

/-- Strum-derived `Display` for `Grade`. -/
def Grade.render : Grade → String
  | Grade.APlus => "A+"
  | Grade.A => "A"
  | Grade.AMinus => "A-"
  | Grade.B => "B"
  | Grade.C => "C"
  | Grade.D => "D"
  | Grade.E => "E"
  | Grade.F => "F"
  | Grade.M => "M"
  | Grade.T => "T"

/-- `Status::set_response` (main.rs lines 104-133).  If the response's raw
status string is non-empty it is parsed; a parse failure panics (modelled as
`Except.error`).  Then: canonical `Error` is terminal with exit code 3;
`InProgress`/`Ready`/`Dns` reset to exit code 0, not ready; anything else
(only `Unknown` remains) is terminal with exit code 3. -/
def Status.set_response (st : Status) (response : Response) :
    Except String Status :=
  match
    (if response.status.isEmpty then some st.status
     else State.from_str response.status) with
  | none => Except.error "Error occurred: unrecognized status"
  | some s =>
    let st := { st with status := s }
    if st.status = State.Error then
      Except.ok
        { st with
          message := response.status_message, exit_code := 3, ready := true }
    else if st.status = State.InProgress ∨ st.status = State.Ready ∨
        st.status = State.Dns then
      Except.ok { st with exit_code := 0, ready := false }
    else
      Except.ok
        { st with
          message := response.status_message, exit_code := 3, ready := true }

/-- `Status::set_ready` (main.rs lines 135-142).  The endpoint's status
message is parsed as a `State` token; on success it overwrites the status.
`ready` is set when the (possibly updated) status is `Ready`. -/
def Status.set_ready (st : Status) (status_message : String) : Status :=
  let st :=
    match State.from_str status_message with
    | some s => { st with status := s }
    | none => st
  if st.status = State.Ready then { st with ready := true } else st

/-- `Status::set_exit_code` (main.rs lines 144-154).  Only acts when a grade
is present; the grade maps to the documented exit code.  An absent grade
leaves the state untouched. -/
def Status.set_exit_code (st : Status) : Status :=
  if st.grade.isSome then
    match st.grade with
    | some Grade.A | some Grade.APlus => { st with exit_code := 0 }
    | some Grade.AMinus => { st with exit_code := 1 }
    | some Grade.B | some Grade.C | some Grade.D | some Grade.E
    | some Grade.F | some Grade.M | some Grade.T => { st with exit_code := 2 }
    | _ => { st with exit_code := 2 }
  else st

/-- `impl Default for Status` (main.rs lines 157-168). -/
def Status.default : Status :=
  { ready := false
    status := State.Unknown
    error := none
    grade := none
    message := none
    exit_code := 0 }

/-- `process_response_body` (main.rs lines 272-300), starting from the
already-decoded `Response` (serde decoding of the raw body is an external
concern; its unwrap panics on malformed JSON before this logic runs).
The panic of `Grade::from_str(grade).unwrap()` on an unrecognized grade
string is modelled as `Except.error`.  The source mutates one `status`
variable; here each update stage is a freshly named state. -/
def process_response_body (response : Response) (status : Status) :
    Except String Status :=
  match Status.set_response status response with
  | Except.error e => Except.error e
  | Except.ok st0 =>
    match response.endpoints with
    | some endpoints =>
      match endpoints.head? with
      | some endpoint =>
        let grade := endpoint.grade.getD ""
        let status_message := endpoint.status_message.getD ""
        let st1 := st0.set_ready status_message
        match
          (if grade.isEmpty then Except.ok st1
           else
             match Grade.from_str grade with
             | some g => Except.ok { st1 with grade := some g }
             | none =>
               Except.error "called Result unwrap on an Err value") with
        | Except.error e => Except.error e
        | Except.ok st2 => Except.ok st2.set_exit_code
      | none =>
        Except.ok
          { st0 with
            exit_code := 3
            status := State.Error
            error := some "Endpoint not ready" }
    | none =>
      Except.ok
        { st0 with
          exit_code := 3
          status := State.Error
          error := some "No endpoint" }

/-- The polling loop of `main` (main.rs lines 208-241), from a given count
and state.  Each iteration increments the attempt count, fetches the next
response from the stream, processes it, and stops when the state is ready or
the count exceeds the configured attempt cap.  Sleeping and the progress bar
are I/O and not modelled.

Both `count` and `cli.attemps` are `u8` in the source (their values lie in
0..=255), modelled as `Nat`.  The increment `count += 1` is therefore
checked 8-bit arithmetic: when `count` is already 255 it overflows, a
program error that panics in debug builds (modelled as `Except.error`; a
release build would instead wrap to 0 and poll forever, equally never
reaching the cap-exceeded exit).  On the domain reachable from `count = 0`
the counter never exceeds 255, so the guard is written `255 ≤ count` — it
coincides with the exact overflow condition `count = 255` there and makes
well-foundedness over the unbounded modelling type manifest. -/
def poll_loop (attemps : Nat) (stream : Nat → Response) :
    Nat → Status → Except String Status
  | count, status =>
    if status.ready then Except.ok status
    else if 255 ≤ count then Except.error "attempt to add with overflow"
    else
      match process_response_body (stream (count + 1)) status with
      | Except.error e => Except.error e
      | Except.ok status' =>
        if attemps < count + 1 then Except.ok status'
        else poll_loop attemps stream (count + 1) status'
  termination_by count _ => 256 - count

/-- The whole of `main` after CLI parsing: run the loop from the default
state and attempt count 0; the process exit code is the final state's
`exit_code`. -/
def run_main (attemps : Nat) (stream : Nat → Response) :
    Except String Status :=
  poll_loop attemps stream 0 Status.default

/-- The documented exit-code invariant: the code is one of 0, 1, 2, 3. -/
def exit_code_ok (st : Status) : Prop :=
  st.exit_code = 0 ∨ st.exit_code = 1 ∨ st.exit_code = 2 ∨ st.exit_code = 3

/-- Exit-code table of spec section 4.3, stated from the spec's words for
comparison with `Status.set_exit_code`. -/
def spec_exit_code : Grade → Int
  | Grade.APlus => 0
  | Grade.A => 0
  | Grade.AMinus => 1
  | _ => 2

/-!
Shared lemmas about the individual state-updating operations.
-/

/-- Unfolding equation for the well-founded recursive `poll_loop`. -/
theorem poll_loop_unfold (attemps : Nat) (stream : Nat → Response)
    (count : Nat) (status : Status) :
    poll_loop attemps stream count status =
      if status.ready then Except.ok status
      else if 255 ≤ count then Except.error "attempt to add with overflow"
      else
        match process_response_body (stream (count + 1)) status with
        | Except.error e => Except.error e
        | Except.ok status' =>
          if attemps < count + 1 then Except.ok status'
          else poll_loop attemps stream (count + 1) status' := by
  rw [poll_loop]

/-- `set_ready` never touches the exit code. -/
theorem set_ready_exit_code (st : Status) (m : String) :
    (Status.set_ready st m).exit_code = st.exit_code := by
  unfold Status.set_ready
  cases h : State.from_str m <;> simp only [] <;> split <;> rfl

/-- `set_ready` never touches the grade. -/
theorem set_ready_grade (st : Status) (m : String) :
    (Status.set_ready st m).grade = st.grade := by
  unfold Status.set_ready
  cases h : State.from_str m <;> simp only [] <;> split <;> rfl

/-- `set_ready` never touches the message. -/
theorem set_ready_message (st : Status) (m : String) :
    (Status.set_ready st m).message = st.message := by
  unfold Status.set_ready
  cases h : State.from_str m <;> simp only [] <;> split <;> rfl

/-- `set_ready` only ever raises the ready flag, never clears it. -/
theorem set_ready_mono (st : Status) (m : String) (h : st.ready = true) :
    (Status.set_ready st m).ready = true := by
  unfold Status.set_ready
  cases hp : State.from_str m <;> simp only [] <;> split <;> simp [h]

/-- With no grade on the state, `set_exit_code` is the identity. -/
theorem set_exit_code_of_none (st : Status) (h : st.grade = none) :
    Status.set_exit_code st = st := by
  unfold Status.set_exit_code
  rw [h]
  rfl

/-- `set_response` on the literal token `"ERROR"` is the terminal error
transition. -/
theorem set_response_error_tok (st : Status) (r : Response)
    (h : r.status = "ERROR") :
    Status.set_response st r =
      Except.ok
        { st with
          status := State.Error
          message := r.status_message
          exit_code := 3
          ready := true } := by
  unfold Status.set_response
  rw [h]
  rfl

/-- `set_response` on the literal token `"READY"` resets to the
non-terminal polling state. -/
theorem set_response_ready_tok (st : Status) (r : Response)
    (h : r.status = "READY") :
    Status.set_response st r =
      Except.ok
        { st with
          status := State.Ready
          exit_code := 0
          ready := false } := by
  unfold Status.set_response
  rw [h]
  rfl

/-- Whenever `set_response` succeeds, the new exit code is 0 or 3. -/
theorem set_response_exit_ok (st : Status) (r : Response) (st' : Status)
    (h : Status.set_response st r = Except.ok st') :
    st'.exit_code = 0 ∨ st'.exit_code = 3 := by
  unfold Status.set_response at h
  split at h
  · exact Except.noConfusion h
  · dsimp only [] at h
    split at h
    · cases h
      exact Or.inr rfl
    · split at h
      · cases h
        exact Or.inl rfl
      · cases h
        exact Or.inr rfl

/-- `set_ready` preserves the exit-code invariant (it never touches the
exit code). -/
theorem set_ready_exit_ok (st : Status) (m : String)
    (h : exit_code_ok st) : exit_code_ok (Status.set_ready st m) := by
  unfold exit_code_ok
  rw [set_ready_exit_code]
  exact h

/-- `set_exit_code` preserves the exit-code invariant: a present grade
maps to 0, 1 or 2; an absent grade leaves the code alone. -/
theorem set_exit_code_ok (st : Status) (h : exit_code_ok st) :
    exit_code_ok (Status.set_exit_code st) := by
  rcases hg : st.grade with _ | g
  · rw [set_exit_code_of_none st hg]
    exact h
  · unfold Status.set_exit_code
    rw [hg]
    cases g <;> simp [exit_code_ok]

/-- Whenever `process_response_body` succeeds, the resulting exit code is
in the documented set. -/
theorem process_exit_ok (r : Response) (st st' : Status)
    (h : process_response_body r st = Except.ok st') :
    exit_code_ok st' := by
  unfold process_response_body at h
  split at h
  · exact Except.noConfusion h
  · rename_i st0 hsr
    have h0 : exit_code_ok st0 := by
      rcases set_response_exit_ok st r st0 hsr with h' | h'

      · exact Or.inl h'
      · exact Or.inr (Or.inr (Or.inr h'))
    split at h
    · split at h
      · dsimp only [] at h
        split at h
        · exact Except.noConfusion h
        · rename_i st2 hst2
          cases h
          apply set_exit_code_ok
          split at hst2
          · cases hst2
            exact set_ready_exit_ok st0 _ h0
          · split at hst2
            · cases hst2
              exact set_ready_exit_ok st0 _ h0
            · exact Except.noConfusion hst2
      · cases h
        exact Or.inr (Or.inr (Or.inr rfl))
    · cases h
      exact Or.inr (Or.inr (Or.inr rfl))

/-- When no processed state is ever ready and the cap is small enough for
the u8 counter to exceed it, the loop runs exactly until the attempt count
exceeds the cap and returns the last computed state. -/
theorem poll_loop_runs_out (attemps : Nat) (stream : Nat → Response)
    (g : Nat → Status) (hcap : attemps ≤ 254)
    (hstep : ∀ n, process_response_body (stream (n + 1)) (g n) =
      Except.ok (g (n + 1)))
    (hready : ∀ n, (g n).ready = false) :
    ∀ k count, attemps = count + k →
      poll_loop attemps stream count (g count) =
        Except.ok (g (attemps + 1)) := by
  intro k
  induction k with
  | zero =>
    intro count hc
    rw [poll_loop_unfold, hready count]
    simp only [Bool.false_eq_true, if_false]
    rw [if_neg (show ¬ 255 ≤ count by omega)]
    simp only [hstep count]
    rw [if_pos (by omega), hc, Nat.add_zero]
  | succ k ih =>
    intro count hc
    rw [poll_loop_unfold, hready count]
    simp only [Bool.false_eq_true, if_false]
    rw [if_neg (show ¬ 255 ≤ count by omega)]
    simp only [hstep count]
    rw [if_neg (by omega)]
    exact ih (count + 1) (by omega)

/-- With the cap at the full u8 range (255) and no processed state ever
ready, the counter can never exceed the cap: the loop instead reaches
count 255 and the next increment overflows (the modelled debug-build
panic; a release build would wrap and poll forever). -/
theorem poll_loop_overflows (stream : Nat → Response) (g : Nat → Status)
    (hstep : ∀ n, process_response_body (stream (n + 1)) (g n) =
      Except.ok (g (n + 1)))
    (hready : ∀ n, (g n).ready = false) :
    ∀ k count, count + k = 255 →
      poll_loop 255 stream count (g count) =
        Except.error "attempt to add with overflow" := by
  intro k
  induction k with
  | zero =>
    intro count hc
    rw [poll_loop_unfold, hready count]
    simp only [Bool.false_eq_true, if_false]
    rw [if_pos (show 255 ≤ count by omega)]
  | succ k ih =>
    intro count hc
    rw [poll_loop_unfold, hready count]
    simp only [Bool.false_eq_true, if_false]
    rw [if_neg (show ¬ 255 ≤ count by omega)]
    simp only [hstep count]
    rw [if_neg (by omega)]
    exact ih (count + 1) (by omega)

/-!
Claim theorems.
-/

/-- Claim C1, counterexample: the claim says an unrecognized non-empty
overall status maps to `Unknown` with a terminal ready=true, exitCode=3
state and never raises; but `set_response` on the unrecognized status
`"NO SUCH STATUS"` panics (modelled as `Except.error`) instead of
producing any state. -/
theorem claim1_counterexample :
    Status.set_response Status.default
      { host := "example.com", status := "NO SUCH STATUS",
        status_message := none, endpoints := none } =
      Except.error "Error occurred: unrecognized status" :=
  rfl

/-- Claim C1 (amended): for a snapshot with a non-empty overallStatus
string, if the string fails to parse as a status token the reconciler
panics (modelled as `Except.error`); the literal token `"UNKNOWN"` is the
one string mapping to the `Unknown` status, and it yields the terminal
ready=true, exitCode=3 outcome. -/
theorem claim1_amended (st : Status) (r : Response)
    (hne : r.status.isEmpty = false) :
    (State.from_str r.status = none →
      Status.set_response st r =
        Except.error "Error occurred: unrecognized status") ∧
    (r.status = "UNKNOWN" →
      Status.set_response st r =
        Except.ok
          { st with
            status := State.Unknown
            message := r.status_message
            exit_code := 3
            ready := true }) := by
  constructor
  · intro hp
    unfold Status.set_response
    simp [hne, hp]
  · intro hu
    unfold Status.set_response
    rw [hu]
    rfl

/-- Witness for claim C1 at a concrete `"UNKNOWN"` snapshot. -/
theorem claim1_witness :
    Status.set_response Status.default
      { host := "example.com", status := "UNKNOWN",
        status_message := some "assessment failed", endpoints := none } =
      Except.ok
        { Status.default with
          status := State.Unknown
          message := some "assessment failed"
          exit_code := 3
          ready := true } :=
  (claim1_amended Status.default
    { host := "example.com", status := "UNKNOWN",
      status_message := some "assessment failed", endpoints := none }
    rfl).2 rfl

/-- Claim C2, counterexample: the claim says an `Error` overall status
yields exitCode=3 regardless of any endpoint grade; but with overall
status `"ERROR"` and a first endpoint carrying grade `"A"`, processing
returns exitCode=0 (the grade mapping overwrites the 3 set earlier). -/
theorem claim2_counterexample :
    process_response_body
      { host := "example.com", status := "ERROR",
        status_message := some "boom",
        endpoints := some [{ status_message := none, grade := some "A" }] }
      Status.default =
      Except.ok
        { ready := true, status := State.Error, error := none,
          grade := some Grade.A, message := some "boom", exit_code := 0 } :=
  rfl

/-- Claim C2 (amended): for a snapshot with overall status `"ERROR"`,
processing yields a state with ready=true, and exitCode=3 provided no
grade is in play: the prior state carries no grade and the snapshot's
endpoints are absent, empty, or have a gradeless first endpoint.  (A
grade, whether from the first endpoint or retained on the state, would
overwrite the exit code via the grade mapping.) -/
theorem claim2_amended (st : Status) (r : Response)
    (hs : r.status = "ERROR") (hg : st.grade = none)
    (he : r.endpoints = none ∨ r.endpoints = some [] ∨
      ∃ e rest, r.endpoints = some (e :: rest) ∧ e.grade.getD "" = "") :
    (process_response_body r st).map Status.exit_code = Except.ok 3 ∧
    (process_response_body r st).map Status.ready = Except.ok true := by
  have h0 := set_response_error_tok st r hs
  rcases he with he | he | ⟨e, rest, he, hge⟩ <;>
    unfold process_response_body <;> rw [h0, he]
  · exact ⟨rfl, rfl⟩
  · exact ⟨rfl, rfl⟩
  · simp +decide [List.head?, hge, Except.map, set_ready_exit_code,
      set_ready_grade, set_ready_mono, set_exit_code_of_none, hg]

/-- Witness for claim C2 at a concrete `"ERROR"` snapshot whose first
endpoint carries no grade. -/
theorem claim2_witness :
    (process_response_body
      { host := "example.com", status := "ERROR",
        status_message := some "boom",
        endpoints := some [{ status_message := none, grade := none }] }
      Status.default).map Status.exit_code = Except.ok 3 ∧
    (process_response_body
      { host := "example.com", status := "ERROR",
        status_message := some "boom",
        endpoints := some [{ status_message := none, grade := none }] }
      Status.default).map Status.ready = Except.ok true :=
  claim2_amended Status.default _ rfl rfl
    (Or.inr (Or.inr ⟨{ status_message := none, grade := none }, [],
      rfl, rfl⟩))

/-- Claim C3, counterexample: the claim says an absent grade yields
exitCode=2; but `set_exit_code` on the default state (grade absent,
exitCode 0) leaves the state — and its exit code 0 — unchanged. -/
theorem claim3_counterexample :
    Status.default.grade = none ∧
    Status.set_exit_code Status.default = Status.default ∧
    Status.default.exit_code = 0 :=
  ⟨rfl, rfl, rfl⟩

/-- Claim C3 (amended): for a present grade, `set_exit_code` realizes the
documented table (A+/A to 0, A- to 1, everything else to 2); for an
absent grade it leaves the state — in particular the exit code —
unchanged rather than yielding 2. -/
theorem claim3_amended (st : Status) :
    (∀ g, st.grade = some g →
      (Status.set_exit_code st).exit_code = spec_exit_code g) ∧
    (st.grade = none → Status.set_exit_code st = st) := by
  constructor
  · intro g hg
    unfold Status.set_exit_code
    rw [hg]
    cases g <;> rfl
  · exact set_exit_code_of_none st
/-- Witness for claim C3 at a concrete state carrying grade A-. -/
theorem claim3_witness :
    (Status.set_exit_code
      { Status.default with grade := some Grade.AMinus }).exit_code = 1 :=
  (claim3_amended _).1 Grade.AMinus rfl

/-- Claim C4, counterexample: the claim says a first-endpoint
statusMessage equal to the literal `"Ready"` makes the reconciler set
ready=true for every state, even when the overall status is still
InProgress; but on a state with status InProgress, `set_ready "Ready"`
leaves ready=false (the mixed-case `"Ready"` does not parse as a status
token, and the status is not already Ready). -/
theorem claim4_counterexample :
    (Status.set_ready { Status.default with status := State.InProgress }
      "Ready").ready = false :=
  rfl

/-- Claim C4 (amended): status-token matching being case-sensitive, the
endpoint message that always sets ready=true is the exact token
`"READY"`; the literal `"Ready"` does not parse, so it leaves the status
unchanged and produces ready=true only when the status was already
Ready. -/
theorem claim4_amended (st : Status) :
    (Status.set_ready st "READY").ready = true ∧
    Status.set_ready st "Ready" =
      (if st.status = State.Ready then { st with ready := true } else st) :=
  ⟨rfl, rfl⟩

/-- Claim C5, counterexample: the claim says a `Ready` snapshot without
endpoints terminates the loop immediately with errorDetail
`"no endpoint"`; but processing such a snapshot leaves ready=false (only
exitCode, status and error are set, the error text being capitalized
`"No endpoint"`), so the loop keeps polling: with a 2-attempt budget,
a later healthy snapshot overwrites the outcome entirely (final exit
code 0, grade A). -/
theorem claim5_counterexample :
    process_response_body
      { host := "example.com", status := "READY", status_message := none,
        endpoints := none } Status.default =
      Except.ok
        { ready := false, status := State.Error,
          error := some "No endpoint", grade := none, message := none,
          exit_code := 3 } ∧
    run_main 2
      (fun n =>
        if n = 1 then
          { host := "example.com", status := "READY",
            status_message := none, endpoints := none }
        else
          { host := "example.com", status := "READY",
            status_message := none,
            endpoints :=
              some [{ status_message := some "READY",
                      grade := some "A" }] }) =
      Except.ok
        { ready := true, status := State.Ready,
          error := some "No endpoint", grade := some Grade.A,
          message := none, exit_code := 0 } := by
  refine ⟨rfl, ?_⟩
  rw [run_main, poll_loop_unfold]
  simp +decide [poll_loop_unfold, process_response_body,
    Status.set_response, State.from_str, Status.set_ready,
    Status.set_exit_code, Grade.from_str, Status.default]

/-- Claim C5 (amended): for a snapshot with overall status `"READY"` and
absent endpoints, processing yields exitCode=3, overallStatus=Error and
errorDetail `"No endpoint"` (`"Endpoint not ready"` when the list exists
but is empty), but ready is left false, so the loop does not terminate at
that attempt: it keeps polling until ready or the attempt cap. -/
theorem claim5_amended (st : Status) (h : String) (m : Option String) :
    process_response_body
      { host := h, status := "READY", status_message := m,
        endpoints := none } st =
      Except.ok
        { st with
          status := State.Error
          ready := false
          exit_code := 3
          error := some "No endpoint" } ∧
    process_response_body
      { host := h, status := "READY", status_message := m,
        endpoints := some [] } st =
      Except.ok
        { st with
          status := State.Error
          ready := false
          exit_code := 3
          error := some "Endpoint not ready" } := by
  constructor
  · unfold process_response_body
    rw [set_response_ready_tok _ _ rfl]
  · unfold process_response_body
    rw [set_response_ready_tok _ _ rfl]
    rfl

/-- Claim C6, counterexample: the claim says status matching is
case-insensitive; but the lowercase spelling `"dns"` fails to parse
(only the exact uppercase tokens match), rather than yielding Dns. -/
theorem claim6_counterexample :
    State.from_str "dns" = none :=
  rfl

/-- Claim C6 (amended): status-token matching is case-sensitive and
exact: the seven serialized tokens parse to their canonical statuses
(the three in-progress spellings all to InProgress), and every other
string — including every other casing of the tokens — fails to parse. -/
theorem claim6_amended :
    State.from_str "DNS" = some State.Dns ∧
    State.from_str "ERROR" = some State.Error ∧
    State.from_str "READY" = some State.Ready ∧
    State.from_str "UNKNOWN" = some State.Unknown ∧
    State.from_str "IN_PROGRESS" = some State.InProgress ∧
    State.from_str "INPROGRESS" = some State.InProgress ∧
    State.from_str "IN PROGRESS" = some State.InProgress ∧
    (∀ s, s ∉ ["DNS", "ERROR", "READY", "UNKNOWN", "IN_PROGRESS",
        "INPROGRESS", "IN PROGRESS"] →
      State.from_str s = none) := by
  refine ⟨rfl, rfl, rfl, rfl, rfl, rfl, rfl, ?_⟩
  intro s hs
  simp only [List.mem_cons, List.not_mem_nil, or_false, not_or] at hs
  obtain ⟨h1, h2, h3, h4, h5, h6, h7⟩ := hs
  simp [State.from_str, h1, h2, h3, h4, h5, h6, h7]

/-- Witness for claim C6: the mixed-case `"Dns"` is rejected while the
exact token `"IN PROGRESS"` parses. -/
theorem claim6_witness :
    State.from_str "Dns" = none ∧
    State.from_str "IN PROGRESS" = some State.InProgress :=
  ⟨claim6_amended.2.2.2.2.2.2.2 "Dns" (by decide),
   claim6_amended.2.2.2.2.2.2.1⟩

/-- Claim C7, counterexample: the claim quantifies over every
configuration, but at the configurable cap 255 (the top of the u8 range
of `cli.attemps`) the loop can never exceed the cap: with a stream that
is never ready, the u8 attempt counter reaches 255 and the next
increment overflows, so the program panics (debug build, as modelled;
a release build would wrap the counter to 0 and poll forever) instead of
terminating with the last processed state. -/
theorem claim7_counterexample :
    run_main 255 (fun _ =>
      { host := "example.com", status := "DNS", status_message := none,
        endpoints := none }) =
      Except.error "attempt to add with overflow" :=
  poll_loop_overflows
    (fun _ =>
      { host := "example.com", status := "DNS", status_message := none,
        endpoints := none })
    (fun n => match n with
      | 0 => Status.default
      | _ + 1 =>
        { ready := false, status := State.Error,
          error := some "No endpoint", grade := none, message := none,
          exit_code := 3 })
    (fun n => match n with
      | 0 => rfl
      | _ + 1 => rfl)
    (fun n => match n with
      | 0 => rfl
      | _ + 1 => rfl)
    255 0 rfl

/-- Claim C7 (amended): for every attempt cap the u8 counter can actually
exceed (at most 254) and every stream of snapshots whose processing
succeeds at each step and never produces a ready state, the poll loop
terminates once the attempt count exceeds the cap, returning the state
computed by the last (cap + 1 st) processing step — in particular the
final exit code is that state's, not forced to an error code.  At cap
255 the counter overflows first (see the counterexample). -/
theorem claim7_cap_termination (attemps : Nat) (stream : Nat → Response)
    (g : Nat → Status) (hcap : attemps ≤ 254) (h0 : g 0 = Status.default)
    (hstep : ∀ n, process_response_body (stream (n + 1)) (g n) =
      Except.ok (g (n + 1)))
    (hready : ∀ n, (g n).ready = false) :
    run_main attemps stream = Except.ok (g (attemps + 1)) := by
  have key := poll_loop_runs_out attemps stream g hcap hstep hready
    attemps 0 (by omega)
  rw [run_main, ← h0]
  exact key

/-- Witness for claim C7: a constant DNS snapshot without endpoints is
never ready; with cap 1 the loop stops after two processing steps and
reports the last computed state (exit code 3 here, from the missing
endpoint, not from any forcing). -/
theorem claim7_witness :
    run_main 1 (fun _ =>
      { host := "example.com", status := "DNS", status_message := none,
        endpoints := none }) =
      Except.ok
        { ready := false, status := State.Error,
          error := some "No endpoint", grade := none, message := none,
          exit_code := 3 } :=
  claim7_cap_termination 1 _
    (fun n => match n with
      | 0 => Status.default
      | _ + 1 =>
        { ready := false, status := State.Error,
          error := some "No endpoint", grade := none, message := none,
          exit_code := 3 })
    (by decide)
    rfl
    (fun n => match n with
      | 0 => rfl
      | _ + 1 => rfl)
    (fun n => match n with
      | 0 => rfl
      | _ + 1 => rfl)

/-- Claim C8: the exit-code invariant (code in 0..3) holds of the initial
state and is preserved by `set_response`, `set_ready`, `set_exit_code`
and the whole per-snapshot update including the endpoint-inspection
branches, so every reachable state satisfies it. -/
theorem claim8_invariant :
    exit_code_ok Status.default ∧
    (∀ st r st', Status.set_response st r = Except.ok st' →
      exit_code_ok st → exit_code_ok st') ∧
    (∀ st m, exit_code_ok st → exit_code_ok (Status.set_ready st m)) ∧
    (∀ st, exit_code_ok st → exit_code_ok (Status.set_exit_code st)) ∧
    (∀ r st st', process_response_body r st = Except.ok st' →
      exit_code_ok st → exit_code_ok st') := by
  refine ⟨Or.inl rfl, ?_, ?_, ?_, ?_⟩
  · intro st r st' h _
    rcases set_response_exit_ok st r st' h with h' | h'
    · exact Or.inl h'
    · exact Or.inr (Or.inr (Or.inr h'))
  · intro st m h
    exact set_ready_exit_ok st m h
  · intro st h
    exact set_exit_code_ok st h
  · intro r st st' h _
    exact process_exit_ok r st st' h

/-- Witness for claim C8: the invariant transported through a full
successful processing step at a concrete healthy snapshot. -/
theorem claim8_witness :
    exit_code_ok
      { ready := true, status := State.Ready, error := none,
        grade := some Grade.A, message := none, exit_code := 0 } :=
  claim8_invariant.2.2.2.2
    { host := "example.com", status := "READY", status_message := none,
      endpoints :=
        some [{ status_message := some "READY", grade := some "A" }] }
    Status.default _ rfl (Or.inl rfl)

/-- Claim C9: rendering any grade or status to its canonical string form
and re-parsing it yields the same enum value. -/
theorem claim9_round_trip :
    (∀ g : Grade, Grade.from_str (Grade.render g) = some g) ∧
    (∀ s : State, State.from_str (State.render s) = some s) :=
  ⟨fun g => by cases g <;> rfl, fun s => by cases s <;> rfl⟩

/-- Claim C10: whenever the first endpoint's statusMessage parses as a
status token, `set_ready` overwrites the state's overall status with it
and sets ready only if the resulting status is Ready; in particular an
`"ERROR"` message switches the status to Error while leaving both
exitCode and ready untouched. -/
theorem claim10_endpoint_overwrite (st : Status) :
    (∀ msg s, State.from_str msg = some s →
      Status.set_ready st msg =
        { st with
          status := s
          ready := if s = State.Ready then true else st.ready }) ∧
    Status.set_ready st "ERROR" = { st with status := State.Error } := by
  constructor
  · intro msg s h
    unfold Status.set_ready
    rw [h]
    by_cases hs : s = State.Ready
    · subst hs
      simp
    · simp [hs]
  · rfl

/-- Witness for claim C10 at the concrete token `"DNS"`. -/
theorem claim10_witness :
    Status.set_ready Status.default "DNS" =
      { Status.default with status := State.Dns } :=
  (claim10_endpoint_overwrite Status.default).1 "DNS" State.Dns rfl

end CheckQualys
